import Mathlib

/-!
Verification development for the Messenger commerce bot
(`automation_bot`).  Each Python service routine that the specification
talks about is shallowly embedded as an executable Lean definition:

* `services/conversation_service.py` — the pure input validators
  (`validate_phone_number`, `validate_quantity`, `validate_name`);
* `services/order_service.py` — the quantity step of the order flow
  (`process_quantity_input`) and the final commit
  (`confirm_and_create_order`);
* `services/verification_service.py` — the verification-requirement
  decision (`check_verification_required`) and the payment-proof
  handler (`handle_payment_proof`);
* `services/admin_service.py` — the admin confirm / cancel operations;
* `services/order_processor.py` — the `OrderProcessor` confirm / cancel
  operations.

Python strings are embedded as `List Char`; machine-side database rows
are explicit structures and the relational store is a record of row
lists; money amounts are rationals (Python mixes `float`/`Decimal`, no
claim here depends on rounding); fallible lookups return `Option` and
code that can raise is threaded through `Except`.
-/

namespace AutomationBot

/-! ## Character and string helpers

Python `str.strip()` / `str.split()` treat the usual ASCII whitespace
characters as separators.  (Unicode whitespace and Unicode digits, which
CPython would also accept, are outside the modelled alphabet.) -/

/-- Whitespace for Python `str.strip()` / `str.split()`:
space, tab, newline, carriage return, vertical tab, form feed. -/
def isPySpace (c : Char) : Bool :=
  c == ' ' || c == '\t' || c == '\n' || c == '\r' || c == '\x0b' || c == '\x0c'

/-- Python `str.strip()`: drop leading and trailing whitespace. -/
def pyStrip (cs : List Char) : List Char :=
  ((cs.dropWhile isPySpace).reverse.dropWhile isPySpace).reverse

/-- Accumulator-style worker for `pyWords`: `acc` holds the current word
reversed. -/
def wordsAux : List Char → List Char → List (List Char)
  | acc, [] => if acc.isEmpty then [] else [acc.reverse]
  | acc, c :: cs =>
    if isPySpace c then
      if acc.isEmpty then wordsAux [] cs else acc.reverse :: wordsAux [] cs
    else wordsAux (c :: acc) cs

/-- Python `str.split()` with no argument: split on whitespace runs,
discarding empty words. -/
def pyWords (cs : List Char) : List (List Char) :=
  wordsAux [] cs

/-- Python `' '.join(ws)`. -/
def joinSpace : List (List Char) → List Char
  | [] => []
  | [w] => w
  | w :: ws => w ++ ' ' :: joinSpace ws

/-- The whitespace-collapsing cleanup `' '.join(s.strip().split())` used by
`validate_name` and `validate_address` (the leading `strip()` is redundant
for `split()` but kept as in the source). -/
def collapseWhitespace (cs : List Char) : List Char :=
  joinSpace (pyWords (pyStrip cs))

/-! ## Phone validator

Embeds `validate_phone_number` of `services/conversation_service.py`
(lines 114-140).  The source strips every character matched by the regex
class `[\s\-\(\)]` and then tries, in order, the anchored patterns
`+639\d{9}`, `09\d{9}`, `639\d{9}`, normalising the two latter shapes to
the canonical `+639XXXXXXXXX` form.  `\d` is modelled as an ASCII digit. -/

/-- Character class `[\s\-\(\)]` of the separator-stripping regex. -/
def isPhoneSeparator (c : Char) : Bool :=
  isPySpace c || c == '-' || c == '(' || c == ')'

/-- `re.sub(r'[\s\-\(\)]', '', phone)`. -/
def stripPhoneSeparators (cs : List Char) : List Char :=
  cs.filter (fun c => !isPhoneSeparator c)

/-- Anchored match of `^\+639\d{9}$`: the literal prefix followed by
exactly nine digits. -/
def matchesPlus639 (p : List Char) : Bool :=
  decide (p.take 4 = ['+', '6', '3', '9']) && (p.drop 4).length == 9
    && (p.drop 4).all Char.isDigit

/-- Anchored match of `^09\d{9}$`. -/
def matches09 (p : List Char) : Bool :=
  decide (p.take 2 = ['0', '9']) && (p.drop 2).length == 9
    && (p.drop 2).all Char.isDigit

/-- Anchored match of `^639\d{9}$`. -/
def matches639 (p : List Char) : Bool :=
  decide (p.take 3 = ['6', '3', '9']) && (p.drop 3).length == 9
    && (p.drop 3).all Char.isDigit

/-- Error message returned when no phone pattern matches. -/
def phoneErrorMessage : List Char :=
  "Invalid phone number. Please use format: 09XXXXXXXXX or +639XXXXXXXXX".data

/-- Embeds `validate_phone_number(phone)`: the Python pair
`(is_valid, formatted_or_error)` is rendered as `Except error formatted`. -/
def validate_phone_number (phone : List Char) : Except (List Char) (List Char) :=
  let p := stripPhoneSeparators phone
  if matchesPlus639 p then .ok p
  else if matches09 p then .ok ('+' :: '6' :: '3' :: p.drop 1)
  else if matches639 p then .ok ('+' :: p)
  else .error phoneErrorMessage

/-! ## Quantity validator

Embeds `validate_quantity` of `services/conversation_service.py`
(lines 142-160).  `int(quantity_text)` is modelled as: strip surrounding
whitespace, optional single sign, one or more ASCII digits (CPython
additionally accepts Unicode digits and underscore separators; those are
outside the modelled alphabet). -/

/-- Value of a nonempty all-digit string, `none` otherwise. -/
def digitsToNat (ds : List Char) : Option Nat :=
  if ds.isEmpty || !ds.all Char.isDigit then none
  else some (ds.foldl (fun n c => 10 * n + (c.toNat - '0'.toNat)) 0)

/-- Python `int(s)`; `none` models `ValueError`. -/
def parsePyInt (s : List Char) : Option Int :=
  match pyStrip s with
  | '+' :: ds => (digitsToNat ds).map Int.ofNat
  | '-' :: ds => (digitsToNat ds).map (fun n => -(Int.ofNat n))
  | ds => (digitsToNat ds).map Int.ofNat

/-- Embeds `validate_quantity(quantity_text)`. -/
def validate_quantity (quantity_text : List Char) : Except String Int :=
  match parsePyInt quantity_text with
  | none => .error "Please enter a valid number"
  | some quantity =>
    if quantity < 1 then .error "Quantity must be at least 1"
    else if quantity > 99 then .error "Maximum quantity is 99 per order"
    else .ok quantity

/-! ## Name validator

Embeds `validate_name` of `services/conversation_service.py`
(lines 162-181).  Note the order of checks in the source: the minimum
length is checked on the *stripped* input, the maximum length on the
*raw* input, and only then is the whitespace-collapsed name produced. -/

/-- Embeds `validate_name(name)`. -/
def validate_name (name : List Char) : Except (List Char) (List Char) :=
  if name.isEmpty || (pyStrip name).length < 2 then
    .error "Name must be at least 2 characters".data
  else if name.length > 255 then
    .error "Name is too long (max 255 characters)".data
  else
    .ok (collapseWhitespace name)

/-! ## Conversation session and the quantity step

Embeds the conversation-state dictionary entry of
`services/conversation_service.py` (`state`, `data`; the TTL fields
`expires_at` / `updated_at` are wall-clock and not modelled) and the
order-flow step `process_quantity_input` of `services/order_service.py`
(lines 102-152). -/

/-- `OrderState.AWAITING_QUANTITY` of `conversation_service.py`. -/
def AWAITING_QUANTITY : String := "awaiting_quantity"

/-- `OrderState.AWAITING_NAME`. -/
def AWAITING_NAME : String := "awaiting_name"

/-- `OrderState.AWAITING_CONFIRMATION`. -/
def AWAITING_CONFIRMATION : String := "awaiting_confirmation"

/-- The `data` dictionary of an order-flow conversation: the product
snapshot captured by `handle_order_request` plus the fields collected by
the later steps (absent dictionary keys are `none`). -/
structure OrderData where
  product_id : Nat
  product_name : String
  product_price : ℚ
  sku : String
  max_stock : Int
  quantity : Option Int := none
  subtotal : Option ℚ := none
  recipient_name : Option (List Char) := none
  phone : Option (List Char) := none
  address : Option (List Char) := none
  payment_method : Option String := none
  shipping_fee : Option ℚ := none
  total_amount : Option ℚ := none
deriving DecidableEq, Repr

/-- One entry of the `conversation_state` dictionary. -/
structure Session where
  state : String
  data : OrderData
deriving DecidableEq, Repr

/-- Outbound sends.  Each constructor stands for one
`send_message` / `send_button_template` call site, carrying the dynamic
data interpolated into the message text. -/
inductive BotMessage where
  /-- `send_message(sender_id, f"❌ err ...")` after a failed quantity
  validation. -/
  | quantityInvalid (err : String)
  /-- `send_message(sender_id, f"❌ Only max_stock units available ...")`. -/
  | quantityOverStock (max_stock : Int)
  /-- The quantity/subtotal recap asking for the recipient name. -/
  | quantityAccepted (quantity : Int) (subtotal : ℚ)
  /-- `"❌ No active order to confirm. Please start a new order."`. -/
  | noActiveOrder
  /-- `"❌ Sorry, insufficient stock. Order cannot be processed."`. -/
  | insufficientStock
  /-- `"❌ Failed to create order. Please try again or contact support."`. -/
  | orderCreationFailed
  /-- The `✅ ORDER CONFIRMED` message of `confirm_and_create_order`. -/
  | orderConfirmed (order_number : String) (total : ℚ)
  /-- The verification-options message of `initiate_verification`. -/
  | verificationOptions (order_id : Nat) (upfront : ℚ)
  /-- The `⏳ PAYMENT PROOF RECEIVED` message, reporting the remaining
  balance. -/
  | paymentProofReceived (remaining : ℚ)
  /-- `"❌ Error saving payment proof. Please try again."`. -/
  | paymentProofError
deriving DecidableEq, Repr

/-- Result of one conversation step: the Python return value, the session
entry for the user afterwards, and the messages sent. -/
structure StepResult where
  handled : Bool
  session : Option Session
  messages : List BotMessage
deriving DecidableEq, Repr

/-- Embeds `process_quantity_input(sender_id, quantity_text)`.  The
in-place mutations of the conversation dictionary are rendered as the
returned `session`. -/
def process_quantity_input (session : Option Session) (quantity_text : List Char) :
    StepResult :=
  match session with
  | none => ⟨false, none, []⟩
  | some s =>
    if s.state ≠ AWAITING_QUANTITY then ⟨false, some s, []⟩
    else
      match validate_quantity quantity_text with
      | .error err => ⟨true, some s, [.quantityInvalid err]⟩
      | .ok quantity =>
        if quantity > s.data.max_stock then
          ⟨true, some s, [.quantityOverStock s.data.max_stock]⟩
        else
          let subtotal : ℚ := s.data.product_price * (quantity : ℚ)
          ⟨true,
           some { state := AWAITING_NAME,
                  data := { s.data with quantity := some quantity,
                                        subtotal := some subtotal } },
           [.quantityAccepted quantity subtotal]⟩

/-! ## Relational store

Rows of the tables touched by the claims, with only the columns the
embedded routines read or write.  Timestamps are not modelled. -/

/-- A row of `products`. -/
structure Product where
  id : Nat
  stock_quantity : Int
  sales_count : Int
  base_price : ℚ
  status : String
deriving DecidableEq, Repr

/-- A row of `users`. -/
structure UserRow where
  id : Nat
  messenger_id : String
  total_orders : Int
  total_spent : ℚ
deriving DecidableEq, Repr

/-- A row of `trusted_buyers`. -/
structure TrustedBuyer where
  user_id : Nat
  verification_skip_enabled : Bool
deriving DecidableEq, Repr

/-- A row of `orders`. -/
structure OrderRow where
  id : Nat
  order_number : String
  user_id : Nat
  subtotal : ℚ
  shipping_fee : ℚ
  total_amount : ℚ
  payment_method : String
  payment_status : String
  order_status : String
  verification_required : Bool
  verification_status : String
  verification_type : Option String
  upfront_paid : ℚ
  remaining_balance : ℚ
  cancellation_reason : Option String
  notes : String
deriving DecidableEq, Repr

/-- A row of `order_items`. -/
structure OrderItemRow where
  order_id : Nat
  product_id : Nat
  product_name : String
  sku : String
  quantity : Int
  unit_price : ℚ
  total_price : ℚ
deriving DecidableEq, Repr

/-- A row of `inventory_logs` (append-only). -/
structure InventoryLogRow where
  product_id : Nat
  transaction_type : String
  quantity_change : Int
  previous_stock : Int
  new_stock : Int
  reference_type : String
  reference_id : Nat
  notes : Option String
deriving DecidableEq, Repr

/-- A row of `order_verifications` (at most one per order, upserted via
`ON DUPLICATE KEY UPDATE`). -/
structure VerificationRow where
  order_id : Nat
  user_id : Nat
  verification_type : String
  verification_status : String
  id_image_url : Option String
  selfie_image_url : Option String
  payment_proof_url : Option String
  upfront_amount : Option ℚ
  payment_method : Option String
  rejection_reason : Option String
deriving DecidableEq, Repr

/-- The relational store. -/
structure DBState where
  products : List Product
  users : List UserRow
  trusted_buyers : List TrustedBuyer
  orders : List OrderRow
  order_items : List OrderItemRow
  inventory_logs : List InventoryLogRow
  order_verifications : List VerificationRow
deriving DecidableEq, Repr

/-- `SELECT id FROM users WHERE messenger_id = %s` (first row). -/
def findUserByMessenger (db : DBState) (messenger_id : String) : Option UserRow :=
  db.users.find? (fun u => u.messenger_id == messenger_id)

/-- `SELECT ... FROM users WHERE id = %s` (first row). -/
def findUserById (db : DBState) (user_id : Nat) : Option UserRow :=
  db.users.find? (fun u => u.id == user_id)

/-- `SELECT ... FROM products WHERE id = %s` (first row); `FOR UPDATE` at
the call sites is the row lock that serialises concurrent transactions. -/
def findProduct (db : DBState) (product_id : Nat) : Option Product :=
  db.products.find? (fun p => p.id == product_id)

/-- `SELECT ... FROM orders WHERE id = %s` (first row). -/
def findOrder (db : DBState) (order_id : Nat) : Option OrderRow :=
  db.orders.find? (fun o => o.id == order_id)

/-- `SELECT ... FROM order_items WHERE order_id = %s`. -/
def itemsOfOrder (db : DBState) (order_id : Nat) : List OrderItemRow :=
  db.order_items.filter (fun i => i.order_id == order_id)

/-- `SELECT ... FROM order_verifications WHERE order_id = %s` (first row). -/
def findVerification (db : DBState) (order_id : Nat) : Option VerificationRow :=
  db.order_verifications.find? (fun v => v.order_id == order_id)

/-- `UPDATE products SET ... WHERE id = %s`. -/
def updateProduct (db : DBState) (product_id : Nat) (f : Product → Product) :
    DBState :=
  { db with products := db.products.map (fun p => if p.id == product_id then f p else p) }

/-- `UPDATE users SET ... WHERE id = %s`. -/
def updateUser (db : DBState) (user_id : Nat) (f : UserRow → UserRow) : DBState :=
  { db with users := db.users.map (fun u => if u.id == user_id then f u else u) }

/-- `UPDATE orders SET ... WHERE id = %s`. -/
def updateOrder (db : DBState) (order_id : Nat) (f : OrderRow → OrderRow) : DBState :=
  { db with orders := db.orders.map (fun o => if o.id == order_id then f o else o) }

/-- Fresh `AUTO_INCREMENT` id for an `orders` insert (`cursor.lastrowid`):
one above every existing id. -/
def nextOrderId (db : DBState) : Nat :=
  db.orders.foldr (fun o m => max o.id m) 0 + 1

/-! ## Verification-requirement decision

Embeds `check_verification_required`, `is_trusted_buyer` and
`is_new_user` of `services/verification_service.py` (lines 21-112).  The
two database lookups can either produce a boolean or raise (the outer
`try` of `check_verification_required` catches every exception), so the
decision function takes them as `Except Unit Bool` oracles; the pure
readings over a `DBState` are given separately. -/

/-- `COD_VERIFICATION_THRESHOLD = 5000`. -/
def COD_VERIFICATION_THRESHOLD : ℚ := 5000

/-- `UPFRONT_PERCENTAGE = 0.10`. -/
def UPFRONT_PERCENTAGE : ℚ := 1 / 10

/-- The dictionary returned by `check_verification_required`. -/
structure VerificationDecision where
  required : Bool
  reason : String
  can_skip : Bool
deriving DecidableEq, Repr

/-- Embeds `check_verification_required(order_total, payment_method,
user_id)`; `is_trusted` and `is_new` stand for the calls
`is_trusted_buyer(user_id)` and `is_new_user(user_id)`, either returning
a boolean or raising.  The `.error` fallback is the outer `except`
branch. -/
def check_verification_required (order_total : ℚ) (payment_method : String)
    (is_trusted is_new : Except Unit Bool) : VerificationDecision :=
  match is_trusted with
  | .error _ => ⟨false, "error", true⟩
  | .ok true => ⟨false, "trusted_buyer", true⟩
  | .ok false =>
    if payment_method = "cod" ∧ COD_VERIFICATION_THRESHOLD ≤ order_total then
      ⟨true, "cod_high_value", false⟩
    else if payment_method = "cod" then
      -- `is_new_user` is only called when the payment method is COD
      -- (Python short-circuit `and`)
      match is_new with
      | .error _ => ⟨false, "error", true⟩
      | .ok true => ⟨true, "new_user_cod", false⟩
      | .ok false => ⟨false, "not_required", true⟩
    else ⟨false, "not_required", true⟩

/-- Embeds the successful reading of `is_trusted_buyer(user_id)`:
`SELECT ... FROM trusted_buyers WHERE user_id = %s AND
verification_skip_enabled = TRUE` is nonempty. -/
def is_trusted_buyer (db : DBState) (user_id : Nat) : Bool :=
  (db.trusted_buyers.find?
    (fun t => t.user_id == user_id && t.verification_skip_enabled)).isSome

/-- Embeds the successful reading of `is_new_user(user_id)`:
`result and result['total_orders'] < 3` (a missing user row is falsy). -/
def is_new_user (db : DBState) (user_id : Nat) : Bool :=
  match findUserById db user_id with
  | none => false
  | some u => u.total_orders < 3

/-- Embeds `create_verification_record(order_id, order_total)`
(verification_service.py lines 159-186): marks the order as requiring
verification.  Note the source sets `remaining_balance` to the full
order total. -/
def create_verification_record (db : DBState) (order_id : Nat) (order_total : ℚ) :
    DBState :=
  updateOrder db order_id (fun o =>
    { o with verification_required := true,
             verification_status := "pending",
             upfront_paid := 0,
             remaining_balance := order_total })

/-! ## Final order commit

Embeds `confirm_and_create_order(sender_id)` of
`services/order_service.py` (lines 323-522).  The whole body between
`start_transaction` and `commit` runs under the `FOR UPDATE` row lock on
the product, so a concurrent commit for the same product is serialised
after it; the embedding therefore treats one call as one atomic
transition of the store.  The generated order number is passed in
(`generate_order_number` draws fresh randomness).  Reads of missing
`data[...]` keys raise `KeyError`, which the outer `except` turns into a
rollback plus the generic failure message, with the session kept. -/

/-- Result of one commit attempt: the returned boolean, the caller's
conversation-session entry afterwards, the store, and the messages sent
to the buyer. -/
structure CommitOutcome where
  success : Bool
  session : Option Session
  db : DBState
  messages : List BotMessage
deriving DecidableEq, Repr

/-- Embeds `confirm_and_create_order`. -/
def confirm_and_create_order (sender_id : String) (session : Option Session)
    (db : DBState) (order_number : String) : CommitOutcome :=
  match session with
  | none => ⟨false, none, db, [.noActiveOrder]⟩
  | some s =>
    if s.state ≠ AWAITING_CONFIRMATION then ⟨false, some s, db, [.noActiveOrder]⟩
    else
      match findUserByMessenger db sender_id with
      | none => ⟨false, some s, db, [.orderCreationFailed]⟩
      | some user =>
        match findProduct db s.data.product_id with
        | none => ⟨false, none, db, [.insufficientStock]⟩
        | some product =>
          match s.data.quantity with
          | none => ⟨false, some s, db, [.orderCreationFailed]⟩
          | some qty =>
            if product.stock_quantity < qty then
              ⟨false, none, db, [.insufficientStock]⟩
            else
              match s.data.subtotal, s.data.shipping_fee, s.data.total_amount,
                    s.data.payment_method, s.data.recipient_name, s.data.phone,
                    s.data.address with
              | some subtotal, some shipping, some total, some pm,
                some rn, some ph, some ad =>
                let oid := nextOrderId db
                let orderRow : OrderRow :=
                  { id := oid, order_number := order_number, user_id := user.id,
                    subtotal := subtotal, shipping_fee := shipping,
                    total_amount := total, payment_method := pm,
                    payment_status := "pending", order_status := "pending",
                    -- the INSERT names neither verification column; these are
                    -- the table defaults (schema not in the repository)
                    verification_required := false,
                    verification_status := "pending",
                    verification_type := none,
                    upfront_paid := 0, remaining_balance := 0,
                    cancellation_reason := none,
                    notes := "Recipient: " ++ String.mk rn ++ ", Phone: "
                              ++ String.mk ph ++ ", Address: " ++ String.mk ad }
                let itemRow : OrderItemRow :=
                  { order_id := oid, product_id := s.data.product_id,
                    product_name := s.data.product_name, sku := s.data.sku,
                    quantity := qty, unit_price := s.data.product_price,
                    total_price := subtotal }
                let newStock := product.stock_quantity - qty
                let logRow : InventoryLogRow :=
                  { product_id := s.data.product_id,
                    transaction_type := "stock_out", quantity_change := -qty,
                    previous_stock := product.stock_quantity,
                    new_stock := newStock, reference_type := "order",
                    reference_id := oid, notes := none }
                let db1 :=
                  updateUser
                    (updateProduct
                      { db with orders := db.orders ++ [orderRow],
                                order_items := db.order_items ++ [itemRow],
                                inventory_logs := db.inventory_logs ++ [logRow] }
                      s.data.product_id
                      (fun p => { p with stock_quantity := newStock,
                                         sales_count := p.sales_count + qty }))
                    user.id
                    (fun u => { u with total_orders := u.total_orders + 1,
                                       total_spent := u.total_spent + total })
                -- the requirement check runs after the commit, against the
                -- already-updated user statistics
                let decision := check_verification_required total pm
                  (.ok (is_trusted_buyer db1 user.id))
                  (.ok (is_new_user db1 user.id))
                if decision.required then
                  ⟨true, some s, create_verification_record db1 oid total,
                   [.verificationOptions oid (total * UPFRONT_PERCENTAGE)]⟩
                else
                  ⟨true, none, db1, [.orderConfirmed order_number total]⟩
              | _, _, _, _, _, _, _ => ⟨false, some s, db, [.orderCreationFailed]⟩

/-! ## Admin order management — `services/admin_service.py`

These two functions are the ones imported by `admin_routes.py` behind
the dashboard's confirm / cancel endpoints.  Neither inspects the
order's current `order_status` or its verification state before
writing. -/

/-- Embeds `confirm_order_by_admin(order_id, admin_notes)`
(admin_service.py lines 248-315): fetch the order, then
unconditionally `UPDATE orders SET order_status = 'confirmed'`
(appending the admin notes when given). -/
def confirm_order_by_admin (db : DBState) (order_id : Nat)
    (admin_notes : Option String) : Bool × DBState :=
  match findOrder db order_id with
  | none => (false, db)
  | some _ =>
    (true,
     updateOrder db order_id (fun o =>
       { o with order_status := "confirmed",
                notes := match admin_notes with
                  | some an => o.notes ++ "\nAdmin Notes: " ++ an
                  | none => o.notes }))

/-- Embeds `cancel_order_by_admin(order_id, reason)`
(admin_service.py lines 317-386): fetch the order with its items, set
the status to `cancelled`, and for every item restore stock, decrement
`sales_count` and append a `return` inventory log whose
`previous_stock`/`new_stock` are read back from the already-updated
product row (the `INSERT ... SELECT` runs after the `UPDATE`). -/
def cancel_order_by_admin (db : DBState) (order_id : Nat) (reason : String) :
    Bool × DBState :=
  match findOrder db order_id with
  | none => (false, db)
  | some _ =>
    let items := itemsOfOrder db order_id
    let db1 := updateOrder db order_id (fun o =>
      { o with order_status := "cancelled",
               notes := o.notes ++ "\nCancelled by Admin: " ++ reason })
    let db2 := items.foldl (fun acc item =>
      let acc1 := updateProduct acc item.product_id (fun p =>
        { p with stock_quantity := p.stock_quantity + item.quantity,
                 sales_count := p.sales_count - item.quantity })
      match findProduct acc1 item.product_id with
      | some p =>
        { acc1 with inventory_logs := acc1.inventory_logs ++
            [{ product_id := item.product_id, transaction_type := "return",
               quantity_change := item.quantity,
               previous_stock := p.stock_quantity - item.quantity,
               new_stock := p.stock_quantity,
               reference_type := "order_cancellation",
               reference_id := order_id, notes := some reason }] }
      | none => acc1) db1
    (true, db2)

namespace OrderProcessor

/-- Result dictionary of the `OrderProcessor` admin operations, plus the
store afterwards. -/
structure OpResult where
  success : Bool
  error : Option String
  db : DBState
deriving DecidableEq, Repr

/-- Embeds `OrderProcessor.confirm_order(order_id, admin_notes)`
(order_processor.py lines 270-330).  `sp_commit_order_inventory` is a
stored procedure whose body is not in the repository; its effect is the
`commitInventory` parameter, reached only once every guard has passed.
The state-history / queue / notification inserts of the success path
touch audit tables outside the modelled store. -/
def confirm_order (commitInventory : DBState → Nat → DBState) (db : DBState)
    (order_id : Nat) : OpResult :=
  match findOrder db order_id with
  | none => ⟨false, some "Order not found", db⟩
  | some order =>
    if order.order_status ≠ "pending" then
      ⟨false, some ("Order is already " ++ order.order_status), db⟩
    else if order.verification_required ∧ order.verification_status ≠ "verified" then
      ⟨false, some "Order requires verification before confirmation", db⟩
    else
      ⟨true, none,
       updateOrder (commitInventory db order_id) order_id (fun o =>
         { o with order_status := "confirmed" })⟩

/-- Embeds `OrderProcessor.cancel_order(order_id, reason, cancelled_by)`
(order_processor.py lines 332-384).  `sp_release_order_inventory` is a
stored procedure not in the repository; its effect is the
`releaseInventory` parameter, reached only when the status guard has
passed. -/
def cancel_order (releaseInventory : DBState → Nat → DBState) (db : DBState)
    (order_id : Nat) (reason : String) : OpResult :=
  match findOrder db order_id with
  | none => ⟨false, some "Order not found", db⟩
  | some order =>
    if order.order_status = "delivered" ∨ order.order_status = "cancelled" then
      ⟨false, some ("Cannot cancel " ++ order.order_status ++ " order"), db⟩
    else
      ⟨true, none,
       updateOrder (releaseInventory db order_id) order_id (fun o =>
         { o with order_status := "cancelled",
                  cancellation_reason := some reason })⟩

end OrderProcessor

/-! ## Payment-proof handler — `services/verification_service.py`

Embeds `handle_payment_proof(messenger_id, order_id, image_url,
payment_method, amount)` (lines 457-532). -/

/-- Embeds the `INSERT ... ON DUPLICATE KEY UPDATE` upsert of the
`upfront_payment` verification record (one record per order). -/
def upsertPaymentVerification (db : DBState) (order_id user_id : Nat)
    (amount : ℚ) (image_url payment_method : String) : DBState :=
  match findVerification db order_id with
  | none =>
    { db with order_verifications := db.order_verifications ++
        [{ order_id := order_id, user_id := user_id,
           verification_type := "upfront_payment",
           verification_status := "under_review",
           id_image_url := none, selfie_image_url := none,
           payment_proof_url := some image_url,
           upfront_amount := some amount,
           payment_method := some payment_method,
           rejection_reason := none }] }
  | some _ =>
    { db with order_verifications := db.order_verifications.map (fun v =>
        if v.order_id == order_id then
          { v with upfront_amount := some amount,
                   payment_proof_url := some image_url,
                   payment_method := some payment_method,
                   verification_status := "under_review",
                   rejection_reason := none }
        else v) }

/-- Models the remaining-balance re-query
`cursor.execute("SELECT total_amount - %s FROM orders ...").fetchone()`
(verification_service.py lines 500-503): `mysql-connector` cursors
return `None` from `execute`, so the chained `.fetchone()` always raises
`AttributeError`; the query can never yield a value. -/
def malformedRemainingBalanceQuery : Except Unit ℚ := .error ()

/-- Embeds `handle_payment_proof`.  The verification upsert and the
order update are committed before the remaining-balance re-query runs,
so the raised exception leaves them durable while the handler falls into
its `except` branch: an error message and `False`. -/
def handle_payment_proof (db : DBState) (messenger_id : String) (order_id : Nat)
    (image_url : String) (payment_method : String) (amount : ℚ) :
    Bool × DBState × List BotMessage :=
  match findUserByMessenger db messenger_id with
  | none => (false, db, [])
  | some user =>
    let db1 := upsertPaymentVerification db order_id user.id amount
                 image_url payment_method
    let db2 := updateOrder db1 order_id (fun o =>
      { o with verification_status := "under_review",
               verification_type := some "upfront_payment" })
    match malformedRemainingBalanceQuery with
    | .ok remaining => (true, db2, [.paymentProofReceived remaining])
    | .error _ => (false, db2, [.paymentProofError])

/-! ## Characterisation of the phone patterns -/

/-- The anchored `^09\d{9}$` match holds exactly of lists of the shape
`'0' :: '9' :: ds` with nine digits `ds`. -/
theorem matches09_iff (p : List Char) :
    matches09 p = true ↔
      ∃ ds, p = '0' :: '9' :: ds ∧ ds.length = 9 ∧ ds.all Char.isDigit = true := by
  rcases p with _ | ⟨a, _ | ⟨b, rest⟩⟩ <;> simp [matches09]
  aesop

/-- The anchored `^\+639\d{9}$` match holds exactly of lists of the
shape `'+' :: '6' :: '3' :: '9' :: ds` with nine digits `ds`. -/
theorem matchesPlus639_iff (p : List Char) :
    matchesPlus639 p = true ↔
      ∃ ds, p = '+' :: '6' :: '3' :: '9' :: ds ∧ ds.length = 9 ∧
        ds.all Char.isDigit = true := by
  rcases p with _ | ⟨a, _ | ⟨b, _ | ⟨c, _ | ⟨d, rest⟩⟩⟩⟩ <;> simp [matchesPlus639]
  aesop

/-- The anchored `^639\d{9}$` match holds exactly of lists of the shape
`'6' :: '3' :: '9' :: ds` with nine digits `ds`. -/
theorem matches639_iff (p : List Char) :
    matches639 p = true ↔
      ∃ ds, p = '6' :: '3' :: '9' :: ds ∧ ds.length = 9 ∧
        ds.all Char.isDigit = true := by
  rcases p with _ | ⟨a, _ | ⟨b, _ | ⟨c, rest⟩⟩⟩ <;> simp [matches639]
  aesop

/-- C4: every input whose separator-stripped form matches `09\d{9}`,
`+639\d{9}` or `639\d{9}` is accepted by the phone validator with the
canonical `+639XXXXXXXXX` form carrying the same nine trailing digits;
every input whose stripped form matches none of the three shapes is
rejected with the error message. -/
theorem phone_validator_correct (phone : List Char) :
    (∀ ds, ds.length = 9 → ds.all Char.isDigit = true →
        (stripPhoneSeparators phone = '0' :: '9' :: ds ∨
         stripPhoneSeparators phone = '+' :: '6' :: '3' :: '9' :: ds ∨
         stripPhoneSeparators phone = '6' :: '3' :: '9' :: ds) →
        validate_phone_number phone = .ok ('+' :: '6' :: '3' :: '9' :: ds)) ∧
    ((∀ ds, ds.length = 9 → ds.all Char.isDigit = true →
        stripPhoneSeparators phone ≠ '0' :: '9' :: ds ∧
        stripPhoneSeparators phone ≠ '+' :: '6' :: '3' :: '9' :: ds ∧
        stripPhoneSeparators phone ≠ '6' :: '3' :: '9' :: ds) →
      validate_phone_number phone = .error phoneErrorMessage) := by
  constructor
  · intro ds h9 hd hshape
    rcases hshape with hp | hp | hp <;>
      simp [validate_phone_number, matchesPlus639, matches09, matches639, hp, h9, hd]
  · intro hno
    have h1 : matchesPlus639 (stripPhoneSeparators phone) = false := by
      cases hm : matchesPlus639 (stripPhoneSeparators phone) with
      | false => rfl
      | true =>
        obtain ⟨ds, hp, h9, hd⟩ := (matchesPlus639_iff _).mp hm
        exact absurd hp (hno ds h9 hd).2.1
    have h2 : matches09 (stripPhoneSeparators phone) = false := by
      cases hm : matches09 (stripPhoneSeparators phone) with
      | false => rfl
      | true =>
        obtain ⟨ds, hp, h9, hd⟩ := (matches09_iff _).mp hm
        exact absurd hp (hno ds h9 hd).1
    have h3 : matches639 (stripPhoneSeparators phone) = false := by
      cases hm : matches639 (stripPhoneSeparators phone) with
      | false => rfl
      | true =>
        obtain ⟨ds, hp, h9, hd⟩ := (matches639_iff _).mp hm
        exact absurd hp (hno ds h9 hd).2.2
    simp [validate_phone_number, h1, h2, h3]

/-- C4 witness: a spaced-and-dashed `09` number normalises to the
canonical `+639` form. -/
theorem phone_validator_correct_witness :
    validate_phone_number "0917 123-4567".data = .ok "+639171234567".data := by
  have h := (phone_validator_correct "0917 123-4567".data).1 "171234567".data
    (by decide) (by decide) (.inl (by decide))
  simpa using h

/-! ## Name validator theorems -/

set_option maxRecDepth 8000 in
/-- C8 counterexample: a raw input of 261 characters whose cleaned form
has only 252 characters is rejected by `validate_name` with the
too-long error, because the source applies the 255 cap to the raw input
before collapsing whitespace. -/
theorem validate_name_raw_cap_counterexample :
    (collapseWhitespace
        (List.replicate 250 'a' ++ (List.replicate 10 ' ' ++ ['b']))).length = 252 ∧
    validate_name (List.replicate 250 'a' ++ (List.replicate 10 ' ' ++ ['b'])) =
      .error "Name is too long (max 255 characters)".data := by
  exact ⟨by decide, rfl⟩

/-- C8 (amended): `validate_name` accepts exactly when the stripped
input has length at least 2 and the raw input has length at most 255
(the 255 cap is checked on the raw input, before whitespace collapsing,
so a long raw input with a short cleaned form is still rejected); on
success it returns the trimmed, whitespace-collapsed name, on failure
one of the two error messages. -/
theorem validate_name_spec (name : List Char) :
    ((∃ v, validate_name name = .ok v) ↔
        2 ≤ (pyStrip name).length ∧ name.length ≤ 255) ∧
    (2 ≤ (pyStrip name).length → name.length ≤ 255 →
        validate_name name = .ok (collapseWhitespace name)) ∧
    (∀ e, validate_name name = .error e →
        e = "Name must be at least 2 characters".data ∨
        e = "Name is too long (max 255 characters)".data) := by
  rcases name with _ | ⟨c, cs⟩
  · refine ⟨?_, ?_, ?_⟩ <;> simp [validate_name, pyStrip]
  · simp only [validate_name, List.isEmpty_cons, Bool.false_or]
    split_ifs with hshort hlong
    · simp only [decide_eq_true_eq] at hshort
      refine ⟨?_, ?_, ?_⟩
      · simp
        omega
      · intro h1 _
        exact absurd h1 (by omega)
      · intro e he
        left
        simpa using he.symm
    · simp only [decide_eq_true_eq, List.length_cons] at hshort hlong ⊢
      refine ⟨?_, ?_, ?_⟩
      · simp
        omega
      · intro _ h2
        exact absurd h2 (by omega)
      · intro e he
        right
        simpa using he.symm
    · simp only [decide_eq_true_eq, not_lt, not_le, List.length_cons] at hshort hlong
      refine ⟨?_, ?_, ?_⟩
      · simp
        omega
      · intro _ _
        rfl
      · intro e he
        simp at he

/-- C8 witness: a padded name is cleaned and accepted. -/
theorem validate_name_spec_witness :
    validate_name "  John   Smith ".data = .ok "John Smith".data := by
  have h := (validate_name_spec "  John   Smith ".data).2.1 (by decide) (by decide)
  simpa using h

/-! ## Quantity step theorem -/

/-- C5: in state `AWAITING_QUANTITY`, an input parsing to an integer in
`[1, 99]` that does not exceed the `max_stock` snapshot advances the
session to `AWAITING_NAME`, storing the quantity and the subtotal; any
other input (unparsable, below 1, above 99, or above the snapshot) is
rejected with an error message and the session entry is unchanged, so
its state remains `AWAITING_QUANTITY`. -/
theorem quantity_step_correct (s : Session) (text : List Char)
    (hstate : s.state = AWAITING_QUANTITY) :
    (∀ q : Int, parsePyInt text = some q → 1 ≤ q → q ≤ 99 →
        q ≤ s.data.max_stock →
        process_quantity_input (some s) text =
          ⟨true,
           some { state := AWAITING_NAME,
                  data := { s.data with
                            quantity := some q,
                            subtotal := some (s.data.product_price * (q : ℚ)) } },
           [.quantityAccepted q (s.data.product_price * (q : ℚ))]⟩) ∧
    ((parsePyInt text = none ∨
        (∃ q : Int, parsePyInt text = some q ∧
          (q < 1 ∨ 99 < q ∨ s.data.max_stock < q))) →
      (process_quantity_input (some s) text).handled = true ∧
      (process_quantity_input (some s) text).session = some s ∧
      (process_quantity_input (some s) text).messages ≠ []) := by
  constructor
  · intro q hq h1 h99 hstock
    have h1' : ¬ q < 1 := not_lt.mpr h1
    have h99' : ¬ q > 99 := not_lt.mpr h99
    have hstock' : ¬ q > s.data.max_stock := not_lt.mpr hstock
    simp [process_quantity_input, hstate, validate_quantity, hq, h1', h99', hstock']
  · intro hbad
    rcases hbad with hq | ⟨q, hq, hcase⟩
    · simp [process_quantity_input, hstate, validate_quantity, hq]
    · by_cases hq1 : q < 1
      · simp [process_quantity_input, hstate, validate_quantity, hq, hq1]
      · by_cases hq99 : q > 99
        · simp [process_quantity_input, hstate, validate_quantity, hq, hq1, hq99]
        · have hst : q > s.data.max_stock := by
            rcases hcase with h | h | h
            · exact absurd h hq1
            · exact absurd h hq99
            · exact h
          simp [process_quantity_input, hstate, validate_quantity, hq, hq1, hq99, hst]

/-- C5 witness: quantity `2` against a snapshot of 10 units advances the
session and stores quantity and subtotal. -/
theorem quantity_step_correct_witness :
    process_quantity_input
        (some ⟨AWAITING_QUANTITY,
          { product_id := 1, product_name := "Shirt", product_price := 100,
            sku := "S1", max_stock := 10 }⟩) "2".data =
      ⟨true,
       some ⟨AWAITING_NAME,
         { product_id := 1, product_name := "Shirt", product_price := 100,
           sku := "S1", max_stock := 10, quantity := some 2,
           subtotal := some (100 * (2 : ℚ)) }⟩,
       [.quantityAccepted 2 (100 * (2 : ℚ))]⟩ := by
  exact (quantity_step_correct _ _ rfl).1 2 (by decide) (by decide) (by decide)
    (by decide)

/-! ## Verification-decision theorems -/

/-- C6: when both user lookups answer, the verification decision applies
its checks in priority order — trusted buyer first (not required), then
high-value cash on delivery (required, `cod_high_value`), then
new-user cash on delivery (required, `new_user_cod`), else not
required. -/
theorem check_verification_priority (total : ℚ) (pm : String) (t n : Bool) :
    (t = true →
      check_verification_required total pm (.ok t) (.ok n) =
        ⟨false, "trusted_buyer", true⟩) ∧
    (t = false → pm = "cod" → COD_VERIFICATION_THRESHOLD ≤ total →
      check_verification_required total pm (.ok t) (.ok n) =
        ⟨true, "cod_high_value", false⟩) ∧
    (t = false → pm = "cod" → total < COD_VERIFICATION_THRESHOLD → n = true →
      check_verification_required total pm (.ok t) (.ok n) =
        ⟨true, "new_user_cod", false⟩) ∧
    (t = false → (pm ≠ "cod" ∨ (total < COD_VERIFICATION_THRESHOLD ∧ n = false)) →
      (check_verification_required total pm (.ok t) (.ok n)).required = false) := by
  refine ⟨?_, ?_, ?_, ?_⟩
  · rintro rfl
    rfl
  · rintro rfl hpm htot
    simp [check_verification_required, hpm, htot]
  · rintro rfl hpm htot rfl
    simp [check_verification_required, hpm, not_le.mpr htot]
  · rintro rfl hcase
    rcases hcase with hpm | ⟨htot, rfl⟩
    · simp [check_verification_required, hpm]
    · by_cases hpm : pm = "cod" <;>
        simp [check_verification_required, hpm, not_le.mpr htot]

/-- C6 witness: a 6000-peso cash-on-delivery order from a non-trusted
buyer requires verification with reason `cod_high_value`. -/
theorem check_verification_priority_witness :
    check_verification_required 6000 "cod" (.ok false) (.ok false) =
      ⟨true, "cod_high_value", false⟩ :=
  (check_verification_priority 6000 "cod" false false).2.1 rfl rfl
    (by norm_num [COD_VERIFICATION_THRESHOLD])

/-- C10: the verification decision is total and fails open: for every
input it returns one of the five well-formed decision dictionaries (it
never propagates an exception), and when an internal lookup raises —
the trusted-buyer check, or the new-user check reached on a low-value
cash-on-delivery order — it returns required `false` with reason
`error`, silently skipping verification. -/
theorem check_verification_fails_open (total : ℚ) (pm : String)
    (t n : Except Unit Bool) :
    (check_verification_required total pm t n = ⟨false, "trusted_buyer", true⟩ ∨
     check_verification_required total pm t n = ⟨true, "cod_high_value", false⟩ ∨
     check_verification_required total pm t n = ⟨true, "new_user_cod", false⟩ ∨
     check_verification_required total pm t n = ⟨false, "not_required", true⟩ ∨
     check_verification_required total pm t n = ⟨false, "error", true⟩) ∧
    (t = .error () →
      check_verification_required total pm t n = ⟨false, "error", true⟩) ∧
    (t = .ok false → pm = "cod" → total < COD_VERIFICATION_THRESHOLD →
      n = .error () →
      check_verification_required total pm t n = ⟨false, "error", true⟩) := by
  rcases t with u | tb
  · cases u
    exact ⟨Or.inr (Or.inr (Or.inr (Or.inr rfl))), fun _ => rfl,
      fun h _ _ _ => by simp at h⟩
  · cases tb
    · by_cases h1 : pm = "cod" ∧ COD_VERIFICATION_THRESHOLD ≤ total
      · refine ⟨Or.inr (Or.inl ?_), fun h => by simp at h, fun _ _ htot _ => ?_⟩
        · simp [check_verification_required, h1]
        · exact absurd h1.2 (not_le.mpr htot)
      · by_cases h2 : pm = "cod"
        · have h3 : ¬ COD_VERIFICATION_THRESHOLD ≤ total := fun hle => h1 ⟨h2, hle⟩
          rcases n with v | nb
          · cases v
            refine ⟨Or.inr (Or.inr (Or.inr (Or.inr ?_))), fun h => by simp at h,
              fun _ _ _ _ => ?_⟩
            · simp [check_verification_required, h2, h3]
            · simp [check_verification_required, h2, h3]
          · cases nb
            · refine ⟨Or.inr (Or.inr (Or.inr (Or.inl ?_))), fun h => by simp at h,
                fun _ _ _ h => by simp at h⟩
              simp [check_verification_required, h2, h3]
            · refine ⟨Or.inr (Or.inr (Or.inl ?_)), fun h => by simp at h,
                fun _ _ _ h => by simp at h⟩
              simp [check_verification_required, h2, h3]
        · refine ⟨Or.inr (Or.inr (Or.inr (Or.inl ?_))), fun h => by simp at h,
            fun _ hpm _ _ => absurd hpm h2⟩
          simp [check_verification_required, h1, h2]
    · exact ⟨Or.inl rfl, fun h => by simp at h, fun h _ _ _ => by simp at h⟩

/-- C10 witness: a raising trusted-buyer lookup yields the fail-open
`error` decision. -/
theorem check_verification_fails_open_witness :
    check_verification_required 100 "cod" (.error ()) (.ok true) =
      ⟨false, "error", true⟩ :=
  (check_verification_fails_open 100 "cod" (.error ()) (.ok true)).2.1 rfl

/-! ## Commit-path lemmas

Shared lemmas describing the two relevant outcomes of
`confirm_and_create_order`: the insufficient-stock abort and the shape
of a successful commit. -/

/-- When the locked re-read finds fewer units than requested, the
commit aborts with the user-facing message, an unchanged store and a
cleared session. -/
theorem commit_insufficient (sender : String) (s : Session) (db : DBState)
    (n : String) (p : Product) (user : UserRow) (qty : Int)
    (hstate : s.state = AWAITING_CONFIRMATION)
    (huser : findUserByMessenger db sender = some user)
    (hprod : findProduct db s.data.product_id = some p)
    (hqty : s.data.quantity = some qty)
    (hstock : p.stock_quantity < qty) :
    confirm_and_create_order sender (some s) db n =
      ⟨false, none, db, [.insufficientStock]⟩ := by
  simp [confirm_and_create_order, hstate, huser, hprod, hqty, hstock]

/-- `find?` commutes with mapping a function that preserves the
predicate. -/
theorem find?_map_pres {α : Type} (pr : α → Bool) (f : α → α) (l : List α)
    (hf : ∀ a, pr (f a) = pr a) :
    (l.map f).find? pr = (l.find? pr).map f := by
  induction l with
  | nil => rfl
  | cons a t ih =>
    by_cases h : pr a = true
    · rw [List.map_cons, List.find?_cons_of_pos _ ((hf a).trans h),
        List.find?_cons_of_pos _ h]
      rfl
    · rw [List.map_cons,
        List.find?_cons_of_neg _ (by rw [hf a]; simpa using h),
        List.find?_cons_of_neg _ (by simpa using h), ih]

/-- Facts about a commit that passes the locked stock check: it returns
success, and — whether or not the verification sub-flow is interposed —
the store afterwards has the user statistics bumped, the product stock
decremented (with `sales_count` incremented), and exactly one new
order, order-item and inventory-log row. -/
theorem commit_success_facts (sender : String) (s : Session) (db : DBState)
    (n : String) (p : Product) (user : UserRow) (qty : Int)
    (sub ship tot : ℚ) (pm : String) (rn ph ad : List Char)
    (hstate : s.state = AWAITING_CONFIRMATION)
    (hq : s.data.quantity = some qty) (hsub : s.data.subtotal = some sub)
    (hship : s.data.shipping_fee = some ship)
    (htot : s.data.total_amount = some tot)
    (hpm : s.data.payment_method = some pm)
    (hrn : s.data.recipient_name = some rn)
    (hph : s.data.phone = some ph) (had : s.data.address = some ad)
    (huser : findUserByMessenger db sender = some user)
    (hprod : findProduct db s.data.product_id = some p)
    (hstock : ¬ p.stock_quantity < qty) :
    (confirm_and_create_order sender (some s) db n).success = true ∧
    (confirm_and_create_order sender (some s) db n).db.users =
      db.users.map (fun w => if w.id == user.id then
        { w with total_orders := w.total_orders + 1,
                 total_spent := w.total_spent + tot } else w) ∧
    (confirm_and_create_order sender (some s) db n).db.products =
      db.products.map (fun q => if q.id == s.data.product_id then
        { q with stock_quantity := p.stock_quantity - qty,
                 sales_count := q.sales_count + qty } else q) ∧
    (confirm_and_create_order sender (some s) db n).db.orders.length =
      db.orders.length + 1 ∧
    (confirm_and_create_order sender (some s) db n).db.order_items.length =
      db.order_items.length + 1 ∧
    (confirm_and_create_order sender (some s) db n).db.inventory_logs.length =
      db.inventory_logs.length + 1 := by
  simp only [confirm_and_create_order, hstate, hq, hsub, hship, htot, hpm, hrn,
    hph, had, huser, hprod, hstock, ne_eq, not_true_eq_false, if_false,
    ite_false, Bool.false_eq_true, reduceIte]
  split <;>
    simp [create_verification_record, updateOrder, updateUser, updateProduct]

/-! ## Final-commit failure theorem -/

/-- C7: when the row-locked stock re-read at final commit finds fewer
units than requested, the commit aborts atomically — the store is
returned unchanged (no order, order-item or inventory-log row, no stock
or user-aggregate change), the buyer receives the user-facing
insufficient-stock message rather than the generic failure, the
conversation session is cleared, and the operation returns failure. -/
theorem insufficient_stock_aborts (sender : String) (s : Session) (db : DBState)
    (n : String) (p : Product) (user : UserRow) (qty : Int)
    (hstate : s.state = AWAITING_CONFIRMATION)
    (huser : findUserByMessenger db sender = some user)
    (hprod : findProduct db s.data.product_id = some p)
    (hqty : s.data.quantity = some qty)
    (hstock : p.stock_quantity < qty) :
    confirm_and_create_order sender (some s) db n =
      ⟨false, none, db, [.insufficientStock]⟩ :=
  commit_insufficient sender s db n p user qty hstate huser hprod hqty hstock

/-- C7 witness: a session requesting one unit of a product whose stock
has dropped to zero is aborted with the insufficient-stock message, the
store untouched and the session cleared. -/
theorem insufficient_stock_aborts_witness :
    confirm_and_create_order "U1"
      (some ⟨AWAITING_CONFIRMATION,
        { product_id := 1, product_name := "Shirt", product_price := 100,
          sku := "S1", max_stock := 1, quantity := some 1, subtotal := some 100,
          recipient_name := some "Ana Cruz".data,
          phone := some "+639171234567".data,
          address := some "123 Rizal St, Quezon City".data,
          payment_method := some "cod", shipping_fee := some 50,
          total_amount := some 150 }⟩)
      ⟨[⟨1, 0, 5, 100, "active"⟩], [⟨7, "U1", 4, 1000⟩], [], [], [], [], []⟩
      "ORD-20251012-11111" =
      ⟨false, none,
       ⟨[⟨1, 0, 5, 100, "active"⟩], [⟨7, "U1", 4, 1000⟩], [], [], [], [], []⟩,
       [.insufficientStock]⟩ := by
  exact insufficient_stock_aborts _ _ _ _ ⟨1, 0, 5, 100, "active"⟩
    ⟨7, "U1", 4, 1000⟩ 1 rfl rfl rfl rfl (by decide)

/-! ## Admin confirm / cancel theorems -/

/-- A store holding a single `pending` order (id 1) that requires
verification, with the given verification status, for exercising the
two admin confirm operations. -/
def gateDb (vs : String) : DBState :=
  { products := [], users := [⟨7, "U1", 4, 1000⟩], trusted_buyers := [],
    orders := [{ id := 1, order_number := "ORD-20251012-11111", user_id := 7,
                 subtotal := 100, shipping_fee := 50, total_amount := 150,
                 payment_method := "cod", payment_status := "pending",
                 order_status := "pending", verification_required := true,
                 verification_status := vs,
                 verification_type := some "id_verification",
                 upfront_paid := 0, remaining_balance := 150,
                 cancellation_reason := none, notes := "" }],
    order_items := [], inventory_logs := [], order_verifications := [] }

/-- On a store whose only order requires verification with status `vs`:
`OrderProcessor.confirm_order` refuses and leaves the store unchanged,
while `confirm_order_by_admin` — the function wired to the admin API —
reports success and sets the order `confirmed` without any
verification check. -/
def gateOutcome (vs : String) : Prop :=
  (OrderProcessor.confirm_order (fun d _ => d) (gateDb vs) 1).success = false ∧
  (OrderProcessor.confirm_order (fun d _ => d) (gateDb vs) 1).error =
    some "Order requires verification before confirmation" ∧
  (OrderProcessor.confirm_order (fun d _ => d) (gateDb vs) 1).db = gateDb vs ∧
  (confirm_order_by_admin (gateDb vs) 1 none).1 = true ∧
  (confirm_order_by_admin (gateDb vs) 1 none).2.orders.map
      (fun o => o.order_status) = ["confirmed"]

/-- C1: the verification gate is violated by the code.  For each
verification status `pending`, `under_review` and `rejected`,
`OrderProcessor.confirm_order` refuses confirmation as the invariant
demands, but `confirm_order_by_admin` — the operation the admin API
actually calls — confirms the order unconditionally, setting
`order_status` to `confirmed` while `verification_required` is true and
the verification is not approved. -/
theorem admin_confirm_bypasses_verification_gate :
    gateOutcome "pending" ∧ gateOutcome "under_review" ∧ gateOutcome "rejected" := by
  refine ⟨?_, ?_, ?_⟩ <;> (unfold gateOutcome; decide)

/-- A store holding a single order (id 1) in the given terminal status,
with one item of quantity 2 over product 1 (stock 5), for exercising
the two admin cancel operations. -/
def cancelDb (st : String) : DBState :=
  { products := [⟨1, 5, 9, 100, "active"⟩], users := [⟨7, "U1", 4, 1000⟩],
    trusted_buyers := [],
    orders := [{ id := 1, order_number := "ORD-20251012-11111", user_id := 7,
                 subtotal := 200, shipping_fee := 50, total_amount := 250,
                 payment_method := "cod", payment_status := "pending",
                 order_status := st, verification_required := false,
                 verification_status := "not_required", verification_type := none,
                 upfront_paid := 0, remaining_balance := 0,
                 cancellation_reason := none, notes := "" }],
    order_items := [⟨1, 1, "Shirt", "S1", 2, 100, 200⟩],
    inventory_logs := [], order_verifications := [] }

/-- On a store whose only order is already in terminal status `st`:
`OrderProcessor.cancel_order` returns a handled failure and leaves every
row unchanged, while `cancel_order_by_admin` — the function wired to
the admin API — reports success, restores the item quantity to stock a
second time (5 becomes 7), decrements `sales_count`, and appends a new
`return` inventory log. -/
def cancelOutcome (st : String) : Prop :=
  (OrderProcessor.cancel_order (fun d _ => d) (cancelDb st) 1 "dup").success = false ∧
  (OrderProcessor.cancel_order (fun d _ => d) (cancelDb st) 1 "dup").error =
    some ("Cannot cancel " ++ st ++ " order") ∧
  (OrderProcessor.cancel_order (fun d _ => d) (cancelDb st) 1 "dup").db = cancelDb st ∧
  (cancel_order_by_admin (cancelDb st) 1 "dup").1 = true ∧
  (cancel_order_by_admin (cancelDb st) 1 "dup").2.products.map
      (fun p => p.stock_quantity) = [7] ∧
  (cancel_order_by_admin (cancelDb st) 1 "dup").2.inventory_logs.length = 1

/-- C2: admin cancellation is not idempotent in the code.  On an
already-`cancelled` and on a `delivered` order,
`OrderProcessor.cancel_order` returns the handled failure the claim
demands, but `cancel_order_by_admin` — the operation the admin API
actually calls — reports success, restores stock again (double
restoration) and appends a fresh inventory-log row. -/
theorem admin_cancel_not_idempotent :
    cancelOutcome "cancelled" ∧ cancelOutcome "delivered" := by
  refine ⟨?_, ?_⟩ <;> (unfold cancelOutcome; decide)

/-! ## Payment-proof handler theorem -/

/-- A store holding a user and one pending order (id 3, total 1000)
awaiting an upfront-payment proof. -/
def proofDb : DBState :=
  { products := [], users := [⟨7, "U1", 4, 1000⟩], trusted_buyers := [],
    orders := [{ id := 3, order_number := "ORD-20251012-22222", user_id := 7,
                 subtotal := 950, shipping_fee := 50, total_amount := 1000,
                 payment_method := "cod", payment_status := "pending",
                 order_status := "pending", verification_required := true,
                 verification_status := "pending",
                 verification_type := some "upfront_payment",
                 upfront_paid := 0, remaining_balance := 1000,
                 cancellation_reason := none, notes := "" }],
    order_items := [], inventory_logs := [], order_verifications := [] }

/-- C9: the payment-proof handler never reports the remaining balance
and never returns success.  On a valid upload over `proofDb` the
verification record is committed as `under_review` and the order marked
`under_review`, but the malformed remaining-balance re-query raises, so
the handler returns `False` and sends the save-error message instead of
the remaining balance of 900. -/
theorem payment_proof_handler_crashes :
    (handle_payment_proof proofDb "U1" 3 "proof.jpg" "gcash" 100).1 = false ∧
    (handle_payment_proof proofDb "U1" 3 "proof.jpg" "gcash" 100).2.2 =
      [.paymentProofError] ∧
    (findVerification (handle_payment_proof proofDb "U1" 3 "proof.jpg"
        "gcash" 100).2.1 3).map (fun v => v.verification_status) =
      some "under_review" ∧
    (findOrder (handle_payment_proof proofDb "U1" 3 "proof.jpg"
        "gcash" 100).2.1 3).map (fun o => o.verification_status) =
      some "under_review" := by
  decide

/-! ## Concurrency theorem

The source takes the product row `FOR UPDATE` inside the same
transaction as the order insert, so of two concurrent commits for the
same product one runs entirely before the other: the race is the two
serialisations, modelled as the two orders of running the atomic
transition `confirm_and_create_order`. -/

/-- A fully collected order-flow session at the confirmation step. -/
def completedSession (pid : Nat) (pname : String) (price : ℚ) (sku : String)
    (ms qty : Int) (sub ship tot : ℚ) (pm : String) (rn ph ad : List Char) :
    Session :=
  ⟨AWAITING_CONFIRMATION,
   { product_id := pid, product_name := pname, product_price := price,
     sku := sku, max_stock := ms, quantity := some qty, subtotal := some sub,
     recipient_name := some rn, phone := some ph, address := some ad,
     payment_method := some pm, shipping_fee := some ship,
     total_amount := some tot }⟩

/-- C3: two final commits for the same product, serialised by the row
lock, with stock 1 and quantity 1 each — the first succeeds, creating
one new order, order-item and inventory-log row and driving the stock
to 0; the second observes insufficient stock and creates nothing: its
store is exactly the store left by the first. -/
theorem order_commit_exactly_once
    (u v : String) (db : DBState) (pid : Nat) (p : Product) (uu uv : UserRow)
    (n1 n2 nu nv skuU skuV pmU pmV : String)
    (prU prV subU subV shU shV totU totV : ℚ) (msU msV : Int)
    (rnU phU adU rnV phV adV : List Char)
    (hprod : findProduct db pid = some p)
    (hstock : p.stock_quantity = 1)
    (hu : findUserByMessenger db u = some uu)
    (hv : findUserByMessenger db v = some uv) :
    (confirm_and_create_order u
      (some (completedSession pid nu prU skuU msU 1 subU shU totU pmU rnU phU adU))
      db n1).success = true ∧
    (confirm_and_create_order u
      (some (completedSession pid nu prU skuU msU 1 subU shU totU pmU rnU phU adU))
      db n1).db.orders.length = db.orders.length + 1 ∧
    (confirm_and_create_order u
      (some (completedSession pid nu prU skuU msU 1 subU shU totU pmU rnU phU adU))
      db n1).db.order_items.length = db.order_items.length + 1 ∧
    (confirm_and_create_order u
      (some (completedSession pid nu prU skuU msU 1 subU shU totU pmU rnU phU adU))
      db n1).db.inventory_logs.length = db.inventory_logs.length + 1 ∧
    findProduct (confirm_and_create_order u
      (some (completedSession pid nu prU skuU msU 1 subU shU totU pmU rnU phU adU))
      db n1).db pid =
      some { p with stock_quantity := 0, sales_count := p.sales_count + 1 } ∧
    confirm_and_create_order v
      (some (completedSession pid nv prV skuV msV 1 subV shV totV pmV rnV phV adV))
      (confirm_and_create_order u
        (some (completedSession pid nu prU skuU msU 1 subU shU totU pmU rnU phU adU))
        db n1).db n2 =
      ⟨false, none,
       (confirm_and_create_order u
         (some (completedSession pid nu prU skuU msU 1 subU shU totU pmU rnU phU adU))
         db n1).db,
       [.insufficientStock]⟩ := by
  have hstock' : ¬ p.stock_quantity < (1 : Int) := by rw [hstock]; omega
  obtain ⟨hsucc, husers, hprods, hords, hitems, hlogs⟩ :=
    commit_success_facts u
      (completedSession pid nu prU skuU msU 1 subU shU totU pmU rnU phU adU)
      db n1 p uu 1 subU shU totU pmU rnU phU adU
      rfl rfl rfl rfl rfl rfl rfl rfl rfl hu hprod hstock'
  have hpid : (p.id == pid) = true := by
    have h' := hprod
    unfold findProduct at h'
    simpa using List.find?_some h'
  simp only [completedSession] at hprods
  -- the product row after the first commit
  have hfindp : findProduct (confirm_and_create_order u
      (some (completedSession pid nu prU skuU msU 1 subU shU totU pmU rnU phU adU))
      db n1).db pid =
      some { p with stock_quantity := 0, sales_count := p.sales_count + 1 } := by
    unfold findProduct
    simp only [completedSession]
    rw [hprods]
    rw [find?_map_pres _ _ _ (fun a => by
      by_cases h : a.id == pid <;> simp [h])]
    rw [show (db.products.find? fun q => q.id == pid) = some p from hprod]
    simp [hpid, hstock]
    intro hcontra
    exact absurd (by simpa using hpid) hcontra
  -- the user lookup of the second commit still succeeds
  have hfindv : findUserByMessenger (confirm_and_create_order u
      (some (completedSession pid nu prU skuU msU 1 subU shU totU pmU rnU phU adU))
      db n1).db v =
      some ((fun w => if w.id == uu.id then
        { w with total_orders := w.total_orders + 1,
                 total_spent := w.total_spent + totU } else w) uv) := by
    unfold findUserByMessenger
    rw [husers]
    rw [find?_map_pres _ _ _ (fun a => by
      by_cases h : a.id == uu.id <;> simp [h])]
    rw [show (db.users.find? fun w => w.messenger_id == v) = some uv from hv]
    rfl
  refine ⟨hsucc, hords, hitems, hlogs, hfindp, ?_⟩
  exact commit_insufficient v _ _ n2 _ _ 1 rfl hfindv hfindp rfl (by simp)

/-- C3 witness: a concrete store with one unit of product 1 and two
buyers; the first commit succeeds and empties the stock, the second is
refused with the insufficient-stock message and writes nothing. -/
theorem order_commit_exactly_once_witness :
    (confirm_and_create_order "U1"
      (some (completedSession 1 "Shirt" 100 "S1" 1 1 100 50 150 "gcash"
        "Ana Cruz".data "+639171234567".data "123 Rizal St, Quezon City".data))
      ⟨[⟨1, 1, 5, 100, "active"⟩], [⟨7, "U1", 4, 1000⟩, ⟨8, "U2", 6, 9000⟩],
       [], [], [], [], []⟩
      "ORD-20251012-11111").success = true ∧
    confirm_and_create_order "U2"
      (some (completedSession 1 "Shirt" 100 "S1" 1 1 100 50 150 "gcash"
        "Ben Reyes".data "+639181234567".data "456 Mabini St, Makati".data))
      (confirm_and_create_order "U1"
        (some (completedSession 1 "Shirt" 100 "S1" 1 1 100 50 150 "gcash"
          "Ana Cruz".data "+639171234567".data "123 Rizal St, Quezon City".data))
        ⟨[⟨1, 1, 5, 100, "active"⟩], [⟨7, "U1", 4, 1000⟩, ⟨8, "U2", 6, 9000⟩],
         [], [], [], [], []⟩
        "ORD-20251012-11111").db
      "ORD-20251012-22222" =
      ⟨false, none,
       (confirm_and_create_order "U1"
         (some (completedSession 1 "Shirt" 100 "S1" 1 1 100 50 150 "gcash"
           "Ana Cruz".data "+639171234567".data "123 Rizal St, Quezon City".data))
         ⟨[⟨1, 1, 5, 100, "active"⟩], [⟨7, "U1", 4, 1000⟩, ⟨8, "U2", 6, 9000⟩],
          [], [], [], [], []⟩
         "ORD-20251012-11111").db,
       [.insufficientStock]⟩ := by
  have h := order_commit_exactly_once "U1" "U2"
    ⟨[⟨1, 1, 5, 100, "active"⟩], [⟨7, "U1", 4, 1000⟩, ⟨8, "U2", 6, 9000⟩],
     [], [], [], [], []⟩
    1 ⟨1, 1, 5, 100, "active"⟩ ⟨7, "U1", 4, 1000⟩ ⟨8, "U2", 6, 9000⟩
    "ORD-20251012-11111" "ORD-20251012-22222" "Shirt" "Shirt" "S1" "S1"
    "gcash" "gcash" 100 100 100 100 50 50 150 150 1 1
    "Ana Cruz".data "+639171234567".data "123 Rizal St, Quezon City".data
    "Ben Reyes".data "+639181234567".data "456 Mabini St, Makati".data
    rfl rfl rfl rfl
  exact ⟨h.1, h.2.2.2.2.2⟩

end AutomationBot
